import Mathlib

/-!
Verification development for the `mcp-exa-licensed` MCP server.

The TypeScript sources are shallowly embedded as pure Lean functions.
Network I/O is made explicit: every outbound call that the code awaits is
passed in as an oracle argument of type `Except String _` (the `.error`
case models a thrown transport/parse error, carrying the `error.message`
string the `catch` handler would observe).  JavaScript `number` fields are
modelled as `Rat` (they are only carried, never computed with), timestamps
(`Date.now()`) as `Int` milliseconds, and the `Map` used for the license
cache as an association list with shadowing insertion, which has the same
`get`/`set` observable behaviour.
-/

namespace McpExa

/-- `LicenseStage` from src/types.ts. -/
inductive LicenseStage where
  | infer | embed | tune | train
deriving DecidableEq, Repr

/-- `Distribution` from src/types.ts. -/
inductive Distribution where
  | «private» | «public»
deriving DecidableEq, Repr

/-- The `action` field of `LedgerLicenseInfo` (src/types.ts): `"allow" | "deny" | "unknown"`. -/
inductive Action where
  | allow | deny | unknown
deriving DecidableEq, Repr

/-- `LedgerLicenseInfo` from src/types.ts: the License Verdict. -/
structure LedgerLicenseInfo where
  url : String
  license_found : Bool
  action : Action
  price : Option Rat := none
  payto : Option String := none
  license_version_id : Option Int := none
  license_sig : Option String := none
  error : Option String := none
deriving DecidableEq, Repr

/-- One raw license record as returned by the ledger lookup endpoint
(`GET /api/v1/licenses/`); fields the code reads off the untyped JSON. -/
structure LicenseRecord where
  license_type : Option String := none
  opt_in_status : Option String := none
  rate_per_token : Option Rat := none
  wallet_id : Option String := none
  id : Option Int := none
deriving DecidableEq, Repr

/-- The ledger lookup's `response.data`: either a JSON array of records or a
single record (`Array.isArray(response.data) ? response.data : [response.data]`). -/
inductive RespData where
  | arr (records : List LicenseRecord)
  | single (record : LicenseRecord)
deriving DecidableEq, Repr

/-- The array the code normalises `response.data` to. -/
def RespData.toList : RespData → List LicenseRecord
  | .arr records => records
  | .single record => [record]

/-- `LedgerServiceConfig` from src/types.ts. -/
structure LedgerServiceConfig where
  apiUrl : String := "https://ledger.copyright.sh"
  apiKey : Option String := none
  enableTracking : Bool := true
  enableCache : Bool := false
  cacheTTLSeconds : Int := 300
  licenseCheckTimeoutMs : Int := 5000
  licenseAcquireTimeoutMs : Int := 8000
  usageLogTimeoutMs : Int := 3000
deriving DecidableEq, Repr

/-- One entry of `LedgerService.licenseCache`: `{ license, expires }`. -/
structure CacheEntry where
  license : LedgerLicenseInfo
  expires : Int
deriving DecidableEq, Repr

/-- The `licenseCache` Map, keyed by URL. -/
abbrev LicenseCache := List (String × CacheEntry)

/-- `Map.get`. -/
def cacheGet (cache : LicenseCache) (url : String) : Option CacheEntry :=
  match cache with
  | [] => none
  | (k, e) :: rest => if k = url then some e else cacheGet rest url

/-- `Map.set`: shadowing insertion (the most recent binding for a key wins,
exactly as a `Map.set` followed by `Map.get` would). -/
def cacheSet (cache : LicenseCache) (url : String) (e : CacheEntry) : LicenseCache :=
  (url, e) :: cache

/-- The degraded verdict `{ url, license_found: false, action: "unknown", error? }`
built on the early-return and catch paths of `checkLicense`. -/
def noLicense (url : String) (err : Option String) : LedgerLicenseInfo :=
  { url := url, license_found := false, action := .unknown, error := err }

/-- Record selection inside `checkLicense`:
`licenseArray.find((l) => l.license_type === "ai-license") || licenseArray[0]`.
(`find` yields an object or `undefined`; objects are truthy, so `|| [0]`
fires exactly when `find` found nothing.) -/
def selectRecord (records : List LicenseRecord) : Option LicenseRecord :=
  match records.find? (fun r => r.license_type == some "ai-license") with
  | some r => some r
  | none => records.head?

/-- The verdict `checkLicense` builds from the selected record: the
opt-in-status-to-action mapping and the pass-through fields. -/
def mkVerdict (url : String) (ld : LicenseRecord) : LedgerLicenseInfo :=
  { url := url
    license_found := ld.opt_in_status == some "opt-in" || ld.opt_in_status == some "opt-out"
    action :=
      if ld.opt_in_status == some "opt-in" then .allow
      else if ld.opt_in_status == some "opt-out" then .deny
      else .unknown
    price := ld.rate_per_token
    payto := ld.wallet_id
    license_version_id := ld.id }

/-- The cache probe at the top of `checkLicense`:
`if (enableCache) { const cached = licenseCache.get(url); if (cached && cached.expires > Date.now()) return cached.license }`. -/
def cacheLookup (cfg : LedgerServiceConfig) (cache : LicenseCache)
    (url : String) (now : Int) : Option LedgerLicenseInfo :=
  if cfg.enableCache then
    match cacheGet cache url with
    | some e => if e.expires > now then some e.license else none
    | none => none
  else none

/-- The outcome of one `checkLicense` invocation: the returned verdict, the
cache state afterwards, and whether the ledger lookup endpoint was hit. -/
structure CheckResult where
  license : LedgerLicenseInfo
  cache : LicenseCache
  netCalled : Bool
deriving DecidableEq, Repr

/-- `LedgerService.checkLicense`.  `net` is the oracle for the one possible
`axiosInstance.get("/api/v1/licenses/")` call: `.ok` carries the parsed
`response.data`, `.error` the message of the exception the `catch` block
would receive (transport error, timeout, parse failure).  The TypeScript
method never throws: every path below returns a verdict. -/
def checkLicense (cfg : LedgerServiceConfig) (cache : LicenseCache) (now : Int)
    (url : String) (net : Except String RespData) : CheckResult :=
  if !cfg.enableTracking then
    ⟨noLicense url none, cache, false⟩
  else
    match cacheLookup cfg cache url now with
    | some lic => ⟨lic, cache, false⟩
    | none =>
      match net with
      | .error msg => ⟨noLicense url (some msg), cache, true⟩
      | .ok data =>
        match selectRecord data.toList with
        | none => ⟨noLicense url none, cache, true⟩
        | some ld =>
          let license := mkVerdict url ld
          let cache2 :=
            if cfg.enableCache then
              cacheSet cache url ⟨license, now + cfg.cacheTTLSeconds * 1000⟩
            else cache
          ⟨license, cache2, true⟩

/-- `LedgerAcquireResponse` from src/types.ts: the Acquisition Grant. -/
structure LedgerAcquireResponse where
  licensed_url : String
  license_version_id : Int
  license_sig : String
  expires_at : String
  cost : Rat
  currency : String
  stage : LicenseStage
  distribution : Distribution
  estimated_tokens : Int
  license_status : String
  rate_per_1k_tokens : Rat
deriving DecidableEq, Repr

/-- The error taxonomy of the spec: a missing credential is a
`ConfigurationError`, a failed/refused network call a `TransportError`. -/
inductive LedgerError where
  | configurationError (msg : String)
  | transportError (msg : String)
deriving DecidableEq, Repr

/-- Parameters of `LedgerService.acquireLicenseToken`. -/
structure AcquireParams where
  url : String
  stage : LicenseStage
  distribution : Distribution
  estimatedTokens : Int
  paymentMethod : String
  paymentProof : Option String := none
  paymentAmount : Option Rat := none
deriving DecidableEq, Repr

/-- `LedgerService.acquireLicenseToken`.  Returns the outcome together with
whether the acquisition endpoint was actually hit.  The guard
`if (!this.config.apiKey) throw ...` runs before any network call. -/
def acquireLicenseToken (cfg : LedgerServiceConfig) (_params : AcquireParams)
    (net : Except String LedgerAcquireResponse) :
    Except LedgerError LedgerAcquireResponse × Bool :=
  match cfg.apiKey with
  | none =>
    (.error (.configurationError
        "COPYRIGHTSH_LEDGER_API_KEY is required for /api/v1/licenses/acquire"), false)
  | some _ =>
    match net with
    | .error msg => (.error (.transportError msg), true)
    | .ok grant => (.ok grant, true)

/-- `UsageHit` from src/types.ts. -/
structure UsageHit where
  url : String
  tokens : Nat
deriving DecidableEq, Repr

/-- `UsageLogRequest` from src/types.ts: the Usage Batch. -/
structure UsageLogRequest where
  gen_id : String
  hits : List UsageHit
deriving DecidableEq, Repr

/-- `LedgerService.logUsage`: the credential guard runs before the single
POST to `/api/v1/usage/log`.  The Bool records whether the endpoint was hit. -/
def logUsage (cfg : LedgerServiceConfig) (_payload : UsageLogRequest)
    (net : Except String Unit) : Except LedgerError Unit × Bool :=
  match cfg.apiKey with
  | none =>
    (.error (.configurationError
        "COPYRIGHTSH_LEDGER_API_KEY is required for /api/v1/usage/log"), false)
  | some _ =>
    match net with
    | .error msg => (.error (.transportError msg), true)
    | .ok _ => (.ok (), true)

/-- The `x402` hint block of `LicensedFetchResult` (src/types.ts). -/
structure X402Hints where
  price : Option String := none
  payto : Option String := none
  stage : Option String := none
  distribution : Option String := none
  facilitator_url : Option String := none
deriving DecidableEq, Repr

/-- The `acquire` block of `LicensedFetchResult` (src/types.ts). -/
structure AcquireInfo where
  licensed_url : String
  cost : Rat
  currency : String
  expires_at : String
  license_version_id : Int
  license_sig : String
deriving DecidableEq, Repr

/-- `LicensedFetchResult` from src/types.ts: the uniform outcome of one
licensed fetch, whatever path the state machine took. -/
structure LicensedFetchResult where
  requested_url : String
  final_url : String
  status : Int
  content_type : Option String := none
  content_text : Option String := none
  payment_attempted : Bool
  payment_required : Bool
  x402 : Option X402Hints := none
  acquire : Option AcquireInfo := none
  error : Option String := none
deriving DecidableEq, Repr

/-- One HTTP response as seen by the fetch engine: final URL after
redirects, status, content type, body, the scheme-identifying
`payment-required` header, and the x402 hint headers. -/
structure HttpResponse where
  finalUrl : String
  status : Int
  contentType : Option String := none
  body : String
  schemeHeader : Option String := none
  x402Price : Option String := none
  x402Payto : Option String := none
  x402Stage : Option String := none
  x402Distribution : Option String := none
  x402Facilitator : Option String := none
deriving DecidableEq, Repr

/-- The `acquire` block built from a grant. -/
def grantInfo (g : LedgerAcquireResponse) : AcquireInfo :=
  { licensed_url := g.licensed_url
    cost := g.cost
    currency := g.currency
    expires_at := g.expires_at
    license_version_id := g.license_version_id
    license_sig := g.license_sig }

/-- The x402 hints parsed from a 402 response's headers. -/
def hintsOf (r : HttpResponse) : X402Hints :=
  { price := r.x402Price
    payto := r.x402Payto
    stage := r.x402Stage
    distribution := r.x402Distribution
    facilitator_url := r.x402Facilitator }

/-- Modelled from the spec: `licensedFetchText` (src/services/licensed-fetcher.ts,
imported by src/src/index.ts but absent from src/), the Licensed Fetch Engine
state machine of spec section 4.3:
START, DIRECT_FETCH, then either DONE, or PAYMENT_REQUIRED, ACQUIRING, and
RETRY_FETCH or ACQUIRE_FAILED, each ending in DONE.  `direct`, `acquire` and
`retry` are the oracles for the direct HTTP GET, the acquisition call and the
retried GET with the grant's licensed URL; bodies are truncated to `maxChars`.
A 402 with the scheme header identifying `x402` enters PAYMENT_REQUIRED and
ACQUIRING (setting `payment_attempted`); any other status, a 402 without that
signaling, or a transport failure ends directly in DONE with
`payment_attempted = false`. -/
def licensedFetchText (url : String) (maxChars : Nat)
    (direct : Except String HttpResponse)
    (acquire : Except String LedgerAcquireResponse)
    (retry : Except String HttpResponse) : LicensedFetchResult :=
  match direct with
  | .error msg =>
    { requested_url := url, final_url := url, status := 0
      payment_attempted := false, payment_required := false, error := some msg }
  | .ok r =>
    if r.status = 402 ∧ r.schemeHeader = some "x402" then
      match acquire with
      | .error msg =>
        { requested_url := url, final_url := r.finalUrl, status := r.status
          content_type := r.contentType
          content_text := some (r.body.take maxChars)
          payment_attempted := true, payment_required := true
          x402 := some (hintsOf r), error := some msg }
      | .ok g =>
        match retry with
        | .ok r2 =>
          { requested_url := url, final_url := r2.finalUrl, status := r2.status
            content_type := r2.contentType
            content_text := some (r2.body.take maxChars)
            payment_attempted := true, payment_required := true
            x402 := some (hintsOf r), acquire := some (grantInfo g) }
        | .error msg =>
          { requested_url := url, final_url := r.finalUrl, status := 0
            payment_attempted := true, payment_required := true
            x402 := some (hintsOf r), acquire := some (grantInfo g)
            error := some msg }
    else
      { requested_url := url, final_url := r.finalUrl, status := r.status
        content_type := r.contentType
        content_text := some (r.body.take maxChars)
        payment_attempted := false, payment_required := false }

/-- `ExaSearchResult` from src/types.ts.  A missing `url` is modelled as the
empty string: `filter(Boolean)` drops both alike. -/
structure ExaSearchResult where
  id : Option String := none
  url : String
  title : Option String := none
  publishedDate : Option String := none
  author : Option String := none
  score : Option Rat := none
  text : Option String := none
deriving DecidableEq, Repr

/-- `results.map((r) => r.url).filter(Boolean)` in the tool handler. -/
def activeUrls (results : List ExaSearchResult) : List String :=
  (results.map (fun r => r.url)).filter (fun u => u ≠ "")

/-- The hit-collection loop of the tool handler (src/src/index.ts):
for each url in order, fetch; if `fetched.content_text` is truthy and
`200 <= fetched.status < 300`, estimate tokens and push a hit when the
estimate is positive.  `fetchOf` and `estimate` are the oracles for
`licensedFetchText` and `TokenEstimator.estimate`. -/
def collectHits (urls : List String) (fetchOf : String → LicensedFetchResult)
    (estimate : String → Nat) : List UsageHit :=
  match urls with
  | [] => []
  | u :: rest =>
    match (fetchOf u).content_text with
    | some s =>
      if s ≠ "" ∧ 200 ≤ (fetchOf u).status ∧ (fetchOf u).status < 300 then
        if estimate s > 0 then ⟨u, estimate s⟩ :: collectHits rest fetchOf estimate
        else collectHits rest fetchOf estimate
      else collectHits rest fetchOf estimate
    | none => collectHits rest fetchOf estimate

/-- The `usage_log` value placed in the response body. -/
structure UsageLogOutcome where
  ok : Bool
  error : Option String := none
  gen_id : String
  hits : Nat
deriving DecidableEq, Repr

/-- One entry of the `results` array of the response body: the spread of the
original Exa result plus the optional `license` and `fetched` fields. -/
structure EnrichedResult where
  base : ExaSearchResult
  license : Option LedgerLicenseInfo := none
  fetched : Option LicensedFetchResult := none
deriving DecidableEq, Repr

/-- The composed response body of the tool handler (query and exa echo
fields omitted: they are constants of the request). -/
structure SearchResponseBody where
  results : List EnrichedResult
  usage_log : Option UsageLogOutcome := none
deriving DecidableEq, Repr

/-- The `copyrightish-exa-search` tool handler after the upstream search
returned `results` (src/src/index.ts).  `licOf` is the oracle for
`ledger.checkLicense` (one verdict per distinct url; the handler keys the
license map by url), `fetchOf` for `licensedFetchText`, `estimate` for the
token estimator, `logNet` for the one possible `ledger.logUsage` call (both
its credential guard and the POST: the handler only observes the thrown
message).  Returns the response body and the number of `logUsage`
invocations made. -/
def handleSearch (results : List ExaSearchResult) (fetch : Bool)
    (licOf : String → LedgerLicenseInfo)
    (fetchOf : String → LicensedFetchResult)
    (estimate : String → Nat) (genId : String)
    (logNet : Except String Unit) : SearchResponseBody × Nat :=
  let urls := activeUrls results
  let licenseLookup : String → Option LedgerLicenseInfo := fun u =>
    if u ∈ urls then some (licOf u) else none
  let fetchedLookup : String → Option LicensedFetchResult := fun u =>
    if u ∈ urls then some (fetchOf u) else none
  let hits := if fetch then collectHits urls fetchOf estimate else []
  let logPair : Option UsageLogOutcome × Nat :=
    if fetch ∧ hits ≠ [] then
      match logNet with
      | .ok _ => (some { ok := true, gen_id := genId, hits := hits.length }, 1)
      | .error e =>
        (some { ok := false, error := some e, gen_id := genId, hits := hits.length }, 1)
    else (none, 0)
  let enriched := results.map fun r =>
    { base := r
      license := licenseLookup r.url
      fetched := if fetch then fetchedLookup r.url else none }
  ({ results := enriched, usage_log := logPair.1 }, logPair.2)

/-! Concrete fixtures used to evaluate the definitions at explicit inputs. -/

/-- A demo URL. -/
def urlDemo : String := "https://news.example/article"

/-- A ledger record of the AI-license type, opted in. -/
def recAi : LicenseRecord :=
  { license_type := some "ai-license", opt_in_status := some "opt-in"
    wallet_id := some "wallet-1", id := some 7 }

/-- A ledger record of a different license type. -/
def recPlain : LicenseRecord :=
  { license_type := some "print-license", opt_in_status := some "opt-out", id := some 3 }

/-- A demo ledger response holding both records, the non-AI one first. -/
def dataDemo : RespData := .arr [recPlain, recAi]

/-- A demo service config with tracking and caching enabled. -/
def cfgDemo : LedgerServiceConfig :=
  { apiKey := some "cs-ledger-demo", enableTracking := true, enableCache := true }

/-- A demo service config with no ledger credential. -/
def cfgNoKey : LedgerServiceConfig := { apiKey := none }

/-- A demo acquisition parameter block. -/
def paramsDemo : AcquireParams :=
  { url := urlDemo, stage := .infer, distribution := .«private»
    estimatedTokens := 1500, paymentMethod := "account_balance" }

/-- A demo usage batch. -/
def batchDemo : UsageLogRequest :=
  { gen_id := "gen-1", hits := [⟨urlDemo, 5⟩] }

/-- A demo successful direct-fetch result (status 200, non-empty body). -/
def fetchOkDemo : LicensedFetchResult :=
  { requested_url := urlDemo, final_url := urlDemo, status := 200
    content_type := some "text/html", content_text := some "Hello"
    payment_attempted := false, payment_required := false }

/-- A demo 402 response carrying the x402 scheme header. -/
def resp402Demo : HttpResponse :=
  { finalUrl := urlDemo, status := 402, body := "Payment Required"
    schemeHeader := some "x402", x402Price := some "0.01" }

/-- A demo Exa search result for `urlDemo`. -/
def resDemo : ExaSearchResult := { url := urlDemo, title := some "An article" }

/-- A demo Exa search result whose `url` is missing/empty. -/
def resNoUrl : ExaSearchResult := { url := "", title := some "No url" }

/-! Helper lemmas shared by the claim theorems. -/

/-- A cache miss stays a miss at any later time: `cacheLookup` only consults
the stored absolute expiry, which only recedes further into the past. -/
lemma cacheLookup_none_mono (cfg : LedgerServiceConfig) (cache : LicenseCache)
    (url : String) {t1 t2 : Int} (h12 : t1 ≤ t2)
    (h : cacheLookup cfg cache url t1 = none) :
    cacheLookup cfg cache url t2 = none := by
  unfold cacheLookup at h ⊢
  by_cases hc : cfg.enableCache
  · simp only [hc, if_true] at h ⊢
    cases hg : cacheGet cache url with
    | none => simp [hg]
    | some e =>
      simp only [hg] at h ⊢
      split at h
      · exact absurd h (by simp)
      · next hgt => simp only [ite_eq_right_iff]; intro hgt2; omega
  · simp [hc]

/-- When tracking is on and the cache misses, `checkLicense` always performs
the network call, whatever the oracle answers. -/
lemma checkLicense_netCalled_of_miss (cfg : LedgerServiceConfig)
    (cache : LicenseCache) (now : Int) (url : String)
    (net : Except String RespData)
    (htrack : cfg.enableTracking = true)
    (hmiss : cacheLookup cfg cache url now = none) :
    (checkLicense cfg cache now url net).netCalled = true := by
  unfold checkLicense
  simp only [htrack, Bool.not_true, Bool.false_eq_true, if_false, hmiss]
  cases net with
  | error msg => rfl
  | ok data =>
    cases hsel : selectRecord data.toList <;> simp [hsel]

/-- On the success path (tracking on, cache miss, a record selected),
`checkLicense` returns the verdict built from the selected record. -/
lemma checkLicense_ok_license (cfg : LedgerServiceConfig) (cache : LicenseCache)
    (now : Int) (url : String) (data : RespData) (ld : LicenseRecord)
    (htrack : cfg.enableTracking = true)
    (hmiss : cacheLookup cfg cache url now = none)
    (hsel : selectRecord data.toList = some ld) :
    (checkLicense cfg cache now url (.ok data)).license = mkVerdict url ld := by
  unfold checkLicense
  simp [htrack, hmiss, hsel]

/-- C2: `checkLicense` never raises (it is a total function in this
embedding — every TypeScript path returns), and every transport or parse
failure of the ledger lookup — the only call that can fail, reached exactly
when tracking is on and the cache misses — is returned as the degraded
verdict with `license_found = false`, `action = unknown` and the error
message populated. -/
theorem checkLicense_failure_degrades (cfg : LedgerServiceConfig)
    (cache : LicenseCache) (now : Int) (url msg : String)
    (htrack : cfg.enableTracking = true)
    (hmiss : cacheLookup cfg cache url now = none) :
    checkLicense cfg cache now url (.error msg) =
      ⟨noLicense url (some msg), cache, true⟩ ∧
    (checkLicense cfg cache now url (.error msg)).license.license_found = false ∧
    (checkLicense cfg cache now url (.error msg)).license.action = .unknown ∧
    (checkLicense cfg cache now url (.error msg)).license.error = some msg := by
  have h : checkLicense cfg cache now url (.error msg) =
      ⟨noLicense url (some msg), cache, true⟩ := by
    unfold checkLicense
    simp [htrack, hmiss]
  refine ⟨h, ?_, ?_, ?_⟩ <;> rw [h] <;> rfl

/-- Witness for C2 at a concrete config, cache, time and message. -/
theorem checkLicense_failure_degrades_witness :
    checkLicense cfgDemo [] 0 urlDemo (.error "timeout of 5000ms exceeded") =
      ⟨noLicense urlDemo (some "timeout of 5000ms exceeded"), [], true⟩ :=
  (checkLicense_failure_degrades cfgDemo [] 0 urlDemo
    "timeout of 5000ms exceeded" rfl rfl).1

/-- C4: on the success path, the selected record's opt-in status is mapped
to the verdict's action as opt-in to allow, opt-out to deny, anything else
to unknown, and `license_found` is true exactly when the status was opt-in
or opt-out. -/
theorem checkLicense_action_mapping (cfg : LedgerServiceConfig)
    (cache : LicenseCache) (now : Int) (url : String) (data : RespData)
    (ld : LicenseRecord)
    (htrack : cfg.enableTracking = true)
    (hmiss : cacheLookup cfg cache url now = none)
    (hsel : selectRecord data.toList = some ld) :
    (checkLicense cfg cache now url (.ok data)).license.action =
      (if ld.opt_in_status = some "opt-in" then .allow
       else if ld.opt_in_status = some "opt-out" then .deny
       else .unknown) ∧
    ((checkLicense cfg cache now url (.ok data)).license.license_found = true ↔
      (ld.opt_in_status = some "opt-in" ∨ ld.opt_in_status = some "opt-out")) := by
  rw [checkLicense_ok_license cfg cache now url data ld htrack hmiss hsel]
  constructor
  · show (if ld.opt_in_status == some "opt-in" then Action.allow
       else if ld.opt_in_status == some "opt-out" then Action.deny
       else Action.unknown) = _
    by_cases h1 : ld.opt_in_status = some "opt-in"
    · simp [h1]
    · by_cases h2 : ld.opt_in_status = some "opt-out" <;> simp [h1, h2]
  · show (ld.opt_in_status == some "opt-in" || ld.opt_in_status == some "opt-out") = true ↔ _
    simp

/-- Witness for C4: the opted-in AI-license record yields action allow and
a found verdict. -/
theorem checkLicense_action_mapping_witness :
    (checkLicense cfgDemo [] 0 urlDemo (.ok dataDemo)).license.action =
      (if recAi.opt_in_status = some "opt-in" then .allow
       else if recAi.opt_in_status = some "opt-out" then .deny
       else .unknown) ∧
    ((checkLicense cfgDemo [] 0 urlDemo (.ok dataDemo)).license.license_found = true ↔
      (recAi.opt_in_status = some "opt-in" ∨ recAi.opt_in_status = some "opt-out")) :=
  checkLicense_action_mapping cfgDemo [] 0 urlDemo dataDemo recAi rfl rfl (by decide)

/-- C6: with no ledger credential configured, `acquireLicenseToken` and
`logUsage` both fail with a `ConfigurationError` and perform no network
call (the returned flag is false), for every input and whatever the network
oracle would have answered. -/
theorem noCredential_configuration_error (cfg : LedgerServiceConfig)
    (params : AcquireParams) (payload : UsageLogRequest)
    (netA : Except String LedgerAcquireResponse) (netL : Except String Unit)
    (hkey : cfg.apiKey = none) :
    acquireLicenseToken cfg params netA =
      (.error (.configurationError
        "COPYRIGHTSH_LEDGER_API_KEY is required for /api/v1/licenses/acquire"), false) ∧
    logUsage cfg payload netL =
      (.error (.configurationError
        "COPYRIGHTSH_LEDGER_API_KEY is required for /api/v1/usage/log"), false) := by
  unfold acquireLicenseToken logUsage
  rw [hkey]
  exact ⟨rfl, rfl⟩

/-- Witness for C6 at the credential-less demo config. -/
theorem noCredential_configuration_error_witness :
    acquireLicenseToken cfgNoKey paramsDemo (.ok {
        licensed_url := "https://news.example/licensed", license_version_id := 7
        license_sig := "sig", expires_at := "2026-01-01T00:00:00Z", cost := 1
        currency := "USD", stage := .infer, distribution := .«private»
        estimated_tokens := 1500, license_status := "active"
        rate_per_1k_tokens := 1 }) =
      (.error (.configurationError
        "COPYRIGHTSH_LEDGER_API_KEY is required for /api/v1/licenses/acquire"), false) ∧
    logUsage cfgNoKey batchDemo (.ok ()) =
      (.error (.configurationError
        "COPYRIGHTSH_LEDGER_API_KEY is required for /api/v1/usage/log"), false) :=
  noCredential_configuration_error cfgNoKey paramsDemo batchDemo _ _ rfl

/-- C8: `selectRecord` — the selection step `checkLicense` applies to the
ledger's one-or-many records — yields a record of the AI-license type
whenever one is present, otherwise the first record of the response; and on
the success path `checkLicense` builds its verdict from that selected
record. -/
theorem selectRecord_prefers_ai_license (data : RespData) :
    ((∃ r ∈ data.toList, r.license_type = some "ai-license") →
      ∃ ld, selectRecord data.toList = some ld ∧
        ld.license_type = some "ai-license") ∧
    ((∀ r ∈ data.toList, r.license_type ≠ some "ai-license") →
      selectRecord data.toList = data.toList.head?) ∧
    (∀ cfg cache now url ld, cfg.enableTracking = true →
      cacheLookup cfg cache url now = none →
      selectRecord data.toList = some ld →
      (checkLicense cfg cache now url (.ok data)).license = mkVerdict url ld) := by
  refine ⟨?_, ?_, ?_⟩
  · rintro ⟨r, hr, hty⟩
    have hsome : (data.toList.find? (fun x => x.license_type == some "ai-license")).isSome := by
      rw [List.find?_isSome]
      exact ⟨r, hr, by simp [hty]⟩
    obtain ⟨ld, hld⟩ := Option.isSome_iff_exists.mp hsome
    refine ⟨ld, ?_, ?_⟩
    · unfold selectRecord
      rw [hld]
    · have := List.find?_some hld
      simpa using this
  · intro hall
    have hnone : data.toList.find? (fun x => x.license_type == some "ai-license") = none := by
      rw [List.find?_eq_none]
      intro x hx
      simpa using hall x hx
    unfold selectRecord
    rw [hnone]
  · intro cfg cache now url ld htrack hmiss hsel
    exact checkLicense_ok_license cfg cache now url data ld htrack hmiss hsel

/-- Witness for C8: in the demo response the AI-license record is second,
yet it is the one selected. -/
theorem selectRecord_prefers_ai_license_witness :
    ∃ ld, selectRecord dataDemo.toList = some ld ∧
      ld.license_type = some "ai-license" :=
  (selectRecord_prefers_ai_license dataDemo).1 ⟨recAi, by decide, rfl⟩

/-- C9: only successfully parsed lookups are stored: a transport/parse
failure, an empty/recordless response, and the tracking-disabled early
return all leave the cache unchanged; consequently, after a failed lookup
the next call for the same URL (tracking on, no valid entry) hits the
network again, even within the TTL. -/
theorem checkLicense_failures_not_cached (cfg : LedgerServiceConfig)
    (cache : LicenseCache) (now : Int) (url : String) :
    (∀ msg, (checkLicense cfg cache now url (.error msg)).cache = cache) ∧
    (∀ data, selectRecord data.toList = none →
      (checkLicense cfg cache now url (.ok data)).cache = cache) ∧
    (cfg.enableTracking = false →
      ∀ net, (checkLicense cfg cache now url net).cache = cache) ∧
    (∀ msg t2 net2, cfg.enableTracking = true →
      cacheLookup cfg cache url now = none → now ≤ t2 →
      (checkLicense cfg (checkLicense cfg cache now url (.error msg)).cache
          t2 url net2).netCalled = true) := by
  refine ⟨?_, ?_, ?_, ?_⟩
  · intro msg
    unfold checkLicense
    cases ht : cfg.enableTracking with
    | false => simp [ht]
    | true =>
      simp only [ht, Bool.not_true, Bool.false_eq_true, if_false]
      cases hl : cacheLookup cfg cache url now <;> simp [hl]
  · intro data hsel
    unfold checkLicense
    cases ht : cfg.enableTracking with
    | false => simp [ht]
    | true =>
      simp only [ht, Bool.not_true, Bool.false_eq_true, if_false]
      cases hl : cacheLookup cfg cache url now <;> simp [hl, hsel]
  · intro ht net
    unfold checkLicense
    simp [ht]
  · intro msg t2 net2 ht hmiss h12
    have hcu : (checkLicense cfg cache now url (.error msg)).cache = cache := by
      unfold checkLicense
      simp [ht, hmiss]
    rw [hcu]
    exact checkLicense_netCalled_of_miss cfg cache t2 url net2 ht
      (cacheLookup_none_mono cfg cache url h12 hmiss)

/-- Witness for C9: after a timed-out lookup at time 0, the call at time 1
(well within the 300 s TTL) hits the network again. -/
theorem checkLicense_failures_not_cached_witness :
    (checkLicense cfgDemo
        (checkLicense cfgDemo [] 0 urlDemo (.error "socket hang up")).cache
        1 urlDemo (.ok dataDemo)).netCalled = true :=
  (checkLicense_failures_not_cached cfgDemo [] 0 urlDemo).2.2.2
    "socket hang up" 1 (.ok dataDemo) rfl rfl (by decide)

/-- C5 counterexample: the claim predicts that, with caching enabled, a
repeated `checkLicense` call for the same URL within the TTL never issues a
new network request and returns a byte-identical verdict.  Concretely: the
first call's lookup fails (timeout), so nothing is cached; the repeated
call 1 ms later issues a network request (`netCalled = true`) and returns a
different verdict. -/
theorem checkLicense_cache_idempotence_counterexample :
    (checkLicense cfgDemo
        (checkLicense cfgDemo [] 0 urlDemo
          (.error "timeout of 5000ms exceeded")).cache
        1 urlDemo (.ok dataDemo)).netCalled = true ∧
    (checkLicense cfgDemo
        (checkLicense cfgDemo [] 0 urlDemo
          (.error "timeout of 5000ms exceeded")).cache
        1 urlDemo (.ok dataDemo)).license ≠
      (checkLicense cfgDemo [] 0 urlDemo
        (.error "timeout of 5000ms exceeded")).license := by
  decide

/-- C5 (amended): with caching and tracking enabled, for a URL whose first
call's lookup succeeded with a record (so the verdict was cached), a
repeated call before the stored expiry returns the identical verdict with
no network request; at or after the expiry the repeated call makes exactly
one fresh network request. -/
theorem checkLicense_cached_idempotent (cfg : LedgerServiceConfig)
    (cache : LicenseCache) (t1 t2 : Int) (url : String) (data : RespData)
    (ld : LicenseRecord) (net2 : Except String RespData)
    (hcache : cfg.enableCache = true) (htrack : cfg.enableTracking = true)
    (hmiss : cacheLookup cfg cache url t1 = none)
    (hsel : selectRecord data.toList = some ld) :
    (t2 < t1 + cfg.cacheTTLSeconds * 1000 →
      checkLicense cfg (checkLicense cfg cache t1 url (.ok data)).cache
          t2 url net2 =
        ⟨(checkLicense cfg cache t1 url (.ok data)).license,
         (checkLicense cfg cache t1 url (.ok data)).cache, false⟩) ∧
    (t1 + cfg.cacheTTLSeconds * 1000 ≤ t2 →
      (checkLicense cfg (checkLicense cfg cache t1 url (.ok data)).cache
          t2 url net2).netCalled = true) := by
  have h1 : checkLicense cfg cache t1 url (.ok data) =
      ⟨mkVerdict url ld,
       cacheSet cache url ⟨mkVerdict url ld, t1 + cfg.cacheTTLSeconds * 1000⟩,
       true⟩ := by
    unfold checkLicense
    simp [htrack, hmiss, hsel, hcache]
  have hget : cacheGet
      (cacheSet cache url ⟨mkVerdict url ld, t1 + cfg.cacheTTLSeconds * 1000⟩) url =
      some ⟨mkVerdict url ld, t1 + cfg.cacheTTLSeconds * 1000⟩ := by
    simp [cacheSet, cacheGet]
  constructor
  · intro hlt
    have hlook : cacheLookup cfg
        (cacheSet cache url ⟨mkVerdict url ld, t1 + cfg.cacheTTLSeconds * 1000⟩)
        url t2 = some (mkVerdict url ld) := by
      unfold cacheLookup
      rw [hget]
      simp only [hcache, if_true]
      exact if_pos (by omega)
    rw [h1]
    show checkLicense cfg
        (cacheSet cache url ⟨mkVerdict url ld, t1 + cfg.cacheTTLSeconds * 1000⟩)
        t2 url net2 = _
    unfold checkLicense
    simp [htrack, hlook]
  · intro hge
    have hlook : cacheLookup cfg
        (cacheSet cache url ⟨mkVerdict url ld, t1 + cfg.cacheTTLSeconds * 1000⟩)
        url t2 = none := by
      unfold cacheLookup
      rw [hget]
      simp only [hcache, if_true]
      exact if_neg (by omega)
    rw [h1]
    exact checkLicense_netCalled_of_miss cfg _ t2 url net2 htrack hlook

/-- Witness for C5 (amended): first call at time 0 caches the verdict; the
repeated call at time 100 (TTL is 300 000 ms) returns it with no network
request. -/
theorem checkLicense_cached_idempotent_witness :
    checkLicense cfgDemo
        (checkLicense cfgDemo [] 0 urlDemo (.ok dataDemo)).cache
        100 urlDemo (.ok dataDemo) =
      ⟨(checkLicense cfgDemo [] 0 urlDemo (.ok dataDemo)).license,
       (checkLicense cfgDemo [] 0 urlDemo (.ok dataDemo)).cache, false⟩ :=
  (checkLicense_cached_idempotent cfgDemo [] 0 100 urlDemo dataDemo recAi
    (.ok dataDemo) rfl rfl rfl (by decide)).1 (by decide)

/-- C1: one invocation of the engine yields exactly one result, and
`payment_attempted` is true exactly when the direct fetch observed a 402
together with the x402 scheme header. -/
theorem licensedFetchText_one_result_payment_iff (url : String) (maxChars : Nat)
    (direct : Except String HttpResponse)
    (acquire : Except String LedgerAcquireResponse)
    (retry : Except String HttpResponse) :
    (∃! result, licensedFetchText url maxChars direct acquire retry = result) ∧
    ((licensedFetchText url maxChars direct acquire retry).payment_attempted = true ↔
      ∃ r, direct = .ok r ∧ r.status = 402 ∧ r.schemeHeader = some "x402") := by
  constructor
  · exact ⟨licensedFetchText url maxChars direct acquire retry, rfl,
      fun y hy => hy.symm⟩
  · cases direct with
    | error msg => simp [licensedFetchText]
    | ok r =>
      by_cases h : r.status = 402 ∧ r.schemeHeader = some "x402"
      · constructor
        · intro _
          exact ⟨r, rfl, h.1, h.2⟩
        · intro _
          simp only [licensedFetchText]
          rw [if_pos h]
          cases acquire with
          | error msg => rfl
          | ok g =>
            cases retry with
            | error msg2 => rfl
            | ok r2 => rfl
      · have hval : (licensedFetchText url maxChars (.ok r) acquire
            retry).payment_attempted = false := by
          simp only [licensedFetchText]
          rw [if_neg h]
        rw [hval]
        simp only [Bool.false_eq_true, false_iff]
        rintro ⟨r2, heq, h1, h2⟩
        cases heq
        exact h ⟨h1, h2⟩

/-- Witness for C1: a 402 with the x402 scheme header makes the engine
attempt payment. -/
theorem licensedFetchText_one_result_payment_iff_witness :
    (licensedFetchText urlDemo 200000 (.ok resp402Demo)
        (.error "COPYRIGHTSH_LEDGER_API_KEY is required for /api/v1/licenses/acquire")
        (.error "unused")).payment_attempted = true :=
  (licensedFetchText_one_result_payment_iff urlDemo 200000 (.ok resp402Demo)
      (.error "COPYRIGHTSH_LEDGER_API_KEY is required for /api/v1/licenses/acquire")
      (.error "unused")).2.mpr ⟨resp402Demo, rfl, rfl, rfl⟩

/-- C3: every hit the orchestrator's fetch loop collects has a positive
token count and comes from a URL whose fetch result carried a non-empty
content body and an HTTP status in [200, 300). -/
theorem collectHits_hits_valid (urls : List String)
    (fetchOf : String → LicensedFetchResult) (estimate : String → Nat)
    (h : UsageHit) (hmem : h ∈ collectHits urls fetchOf estimate) :
    h.tokens > 0 ∧ 200 ≤ (fetchOf h.url).status ∧ (fetchOf h.url).status < 300 ∧
    ∃ s, (fetchOf h.url).content_text = some s ∧ s ≠ "" := by
  induction urls with
  | nil => simp [collectHits] at hmem
  | cons u rest ih =>
    simp only [collectHits] at hmem
    split at hmem
    · next s hct =>
      split at hmem
      · next hcond =>
        split at hmem
        · next ht =>
          rcases List.mem_cons.mp hmem with heq | hmem2
          · subst heq
            exact ⟨ht, hcond.2.1, hcond.2.2, s, hct, hcond.1⟩
          · exact ih hmem2
        · next => exact ih hmem
      · next => exact ih hmem
    · next hct => exact ih hmem

/-- Witness for C3 at a concrete batch of one successful fetch. -/
theorem collectHits_hits_valid_witness :
    (5 : Nat) > 0 ∧ 200 ≤ fetchOkDemo.status ∧ fetchOkDemo.status < 300 ∧
    ∃ s, fetchOkDemo.content_text = some s ∧ s ≠ "" :=
  collectHits_hits_valid [urlDemo] (fun _ => fetchOkDemo) (fun s => s.length)
    ⟨urlDemo, 5⟩ (by decide)

/-- Every collected hit's URL occurs in the fetched URL list. -/
lemma collectHits_url_mem (urls : List String)
    (fetchOf : String → LicensedFetchResult) (estimate : String → Nat)
    (h : UsageHit) (hmem : h ∈ collectHits urls fetchOf estimate) :
    h.url ∈ urls := by
  induction urls with
  | nil => simp [collectHits] at hmem
  | cons u rest ih =>
    simp only [collectHits] at hmem
    split at hmem
    · next s hct =>
      split at hmem
      · next hcond =>
        split at hmem
        · next ht =>
          rcases List.mem_cons.mp hmem with heq | hmem2
          · subst heq
            exact List.mem_cons_self u rest
          · exact List.mem_cons_of_mem u (ih hmem2)
        · next => exact List.mem_cons_of_mem u (ih hmem)
      · next => exact List.mem_cons_of_mem u (ih hmem)
    · next hct => exact List.mem_cons_of_mem u (ih hmem)

/-- The `results` array the handler composes, explicitly. -/
lemma handleSearch_results_def (results : List ExaSearchResult) (fetch : Bool)
    (licOf : String → LedgerLicenseInfo) (fetchOf : String → LicensedFetchResult)
    (estimate : String → Nat) (genId : String) (logNet : Except String Unit) :
    (handleSearch results fetch licOf fetchOf estimate genId logNet).1.results =
      results.map (fun r =>
        { base := r
          license := if r.url ∈ activeUrls results then some (licOf r.url) else none
          fetched := if fetch then
              (if r.url ∈ activeUrls results then some (fetchOf r.url) else none)
            else none }) := rfl

/-- The handler returns one enriched entry per upstream result, in order. -/
lemma handleSearch_results_base (results : List ExaSearchResult) (fetch : Bool)
    (licOf : String → LedgerLicenseInfo) (fetchOf : String → LicensedFetchResult)
    (estimate : String → Nat) (genId : String) (logNet : Except String Unit) :
    (handleSearch results fetch licOf fetchOf estimate genId
        logNet).1.results.map (fun er => er.base) = results := by
  rw [handleSearch_results_def, List.map_map]
  exact List.map_id results

/-- C7: when the fetch loop collected at least one hit, the handler makes
exactly one usage-log call; if that call fails, the failure is surfaced as
`usage_log = { ok := false, error, gen_id, hits }` while the enriched
search results are still returned, one per upstream result. -/
theorem handleSearch_logs_once (results : List ExaSearchResult)
    (licOf : String → LedgerLicenseInfo) (fetchOf : String → LicensedFetchResult)
    (estimate : String → Nat) (genId : String) (logNet : Except String Unit)
    (hhits : collectHits (activeUrls results) fetchOf estimate ≠ []) :
    (handleSearch results true licOf fetchOf estimate genId logNet).2 = 1 ∧
    ((handleSearch results true licOf fetchOf estimate genId
        logNet).1.results.map (fun er => er.base) = results) ∧
    (∀ e, logNet = .error e →
      (handleSearch results true licOf fetchOf estimate genId
          logNet).1.usage_log =
        some { ok := false, error := some e, gen_id := genId
               hits := (collectHits (activeUrls results) fetchOf
                 estimate).length }) := by
  refine ⟨?_, handleSearch_results_base results true licOf fetchOf estimate
    genId logNet, ?_⟩
  · cases logNet <;> simp [handleSearch, hhits]
  · intro e he
    subst he
    simp [handleSearch, hhits]

/-- Witness for C7: one successful fetch, a failing usage-log call. -/
theorem handleSearch_logs_once_witness :
    (handleSearch [resDemo] true (fun u => noLicense u none)
        (fun _ => fetchOkDemo) (fun s => s.length) "gen-1"
        (.error "request failed")).2 = 1 ∧
    (handleSearch [resDemo] true (fun u => noLicense u none)
        (fun _ => fetchOkDemo) (fun s => s.length) "gen-1"
        (.error "request failed")).1.usage_log =
      some { ok := false, error := some "request failed", gen_id := "gen-1"
             hits := (collectHits (activeUrls [resDemo]) (fun _ => fetchOkDemo)
               (fun s => s.length)).length } :=
  ⟨(handleSearch_logs_once [resDemo] (fun u => noLicense u none)
      (fun _ => fetchOkDemo) (fun s => s.length) "gen-1"
      (.error "request failed") (by decide)).1,
   (handleSearch_logs_once [resDemo] (fun u => noLicense u none)
      (fun _ => fetchOkDemo) (fun s => s.length) "gen-1"
      (.error "request failed") (by decide)).2.2 "request failed" rfl⟩

/-- C10: a result with a missing/empty url is excluded from license
checking and fetching (its url is not among the active urls) and from
usage hits, yet its entry still appears in the response, at its original
position, with `license` and `fetched` absent; the response has one entry
per upstream result in the original order. -/
theorem handleSearch_empty_url_entries (results : List ExaSearchResult)
    (fetch : Bool) (licOf : String → LedgerLicenseInfo)
    (fetchOf : String → LicensedFetchResult) (estimate : String → Nat)
    (genId : String) (logNet : Except String Unit) :
    ((handleSearch results fetch licOf fetchOf estimate genId
        logNet).1.results.map (fun er => er.base) = results) ∧
    (∀ (i : Nat) (r : ExaSearchResult), results[i]? = some r → r.url = "" →
      (handleSearch results fetch licOf fetchOf estimate genId
          logNet).1.results[i]? =
        some { base := r, license := none, fetched := none }) ∧
    "" ∉ activeUrls results ∧
    (∀ h ∈ collectHits (activeUrls results) fetchOf estimate, h.url ≠ "") := by
  have hempty : "" ∉ activeUrls results := by
    simp [activeUrls, List.mem_filter]
  refine ⟨handleSearch_results_base results fetch licOf fetchOf estimate genId
    logNet, ?_, hempty, ?_⟩
  · intro i r hi hurl
    rw [handleSearch_results_def, List.getElem?_map, hi]
    simp only [Option.map_some']
    have hnot : r.url ∉ activeUrls results := by
      rw [hurl]
      exact hempty
    simp only [hnot, if_false]
    cases fetch <;> simp
  · intro h hmem
    intro hurl
    have := collectHits_url_mem (activeUrls results) fetchOf estimate h hmem
    rw [hurl] at this
    exact hempty this

/-- Witness for C10: a result with an empty url keeps its slot in the
response with no `license` and no `fetched` field. -/
theorem handleSearch_empty_url_entries_witness :
    (handleSearch [resNoUrl] true (fun u => noLicense u none)
        (fun _ => fetchOkDemo) (fun s => s.length) "gen-1"
        (.ok ())).1.results[0]? =
      some { base := resNoUrl, license := none, fetched := none } :=
  (handleSearch_empty_url_entries [resNoUrl] true (fun u => noLicense u none)
    (fun _ => fetchOkDemo) (fun s => s.length) "gen-1" (.ok ())).2.1
    0 resNoUrl rfl rfl

end McpExa
